import Mathlib

/-!
Verification of the SSRF-protection core of the SEO analyzer service
(`server/services/seoAnalyzer.ts`, hardened version).

The TypeScript source is shallowly embedded below:

* the anchored regular expressions of `BLOCKED_IP_RANGES` are compiled,
  one by one, into prefix patterns over `List Char` (`RangePat`); each
  definition carries the original regex in a comment so it can be diffed
  against the source;
* `isIPAddress`, `isBlockedIP`, `METADATA_IPS`, `validateHostname`,
  `validateAndSanitizeUrl` and `fetchHTML` are translated function by
  function.  DNS resolution, WHATWG URL parsing of raw strings and the
  HTTP transport are oracles collected in an `Env` record, so theorems
  can quantify over every possible network behaviour;
* JavaScript `try { ... } catch { ... }` blocks are made explicit: a
  value of type `Option VErr` (respectively `Except VErr _`) records
  whether the guarded code threw.  In particular the `catch (dnsError)`
  blocks of `validateHostname` swallow *every* error raised inside the
  corresponding `try`, including the `throw` statements guarding blocked
  addresses; the embedding reproduces this faithfully.
* `calculateSEOScore` is translated block by block; the source field
  `recommendation` of `MetaTag` is called `advice` here (the original
  identifier is unavailable), everything else keeps its source name.
-/

/-! ### Character-prefix patterns: compiled forms of the source regexes -/

/-- One regex atom: a literal character or a character class `[lo-hi]`. -/
inductive Pat where
  | lit : Char → Pat
  | cls : Char → Char → Pat
  deriving DecidableEq, Repr

def patMatch : Pat → Char → Bool
  | .lit a, c => c == a
  | .cls lo hi, c => lo ≤ c && c ≤ hi

/-- Match a sequence of atoms at the head of the input, returning the
remaining characters on success. -/
def matchAt : List Pat → List Char → Option (List Char)
  | [], cs => some cs
  | _ :: _, [] => none
  | p :: ps, c :: cs => if patMatch p c then matchAt ps cs else none

/-- A compiled source regex: a disjunction of atom sequences (the
alternatives of the regex), plus whether the regex is `$`-anchored. All
source regexes are `^`-anchored and star-free, so this representation is
exact. -/
structure RangePat where
  alts : List (List Pat)
  anchored : Bool
  deriving DecidableEq, Repr

def rangeMatches (r : RangePat) (cs : List Char) : Bool :=
  r.alts.any fun alt =>
    match matchAt alt cs with
    | some rest => !r.anchored || rest.isEmpty
    | none => false

/-- Literal string as a sequence of `Pat.lit` atoms. -/
def lits (s : String) : List Pat := s.data.map Pat.lit

/-! The entries of `BLOCKED_IP_RANGES`, in source order. -/

/-- Source regex `/^0\./` (0.0.0.0\/8, reserved). -/
def reZero : RangePat := ⟨[lits "0."], false⟩

/-- Source regex `/^10\./` (10.0.0.0\/8, private). -/
def reTen : RangePat := ⟨[lits "10."], false⟩

/-- Source regex `/^100\.(6[4-9]|[7-9][0-9]|1[0-1][0-9]|12[0-7])\./`
(100.64.0.0\/10, carrier-grade NAT). -/
def reCgn : RangePat :=
  ⟨[lits "100." ++ [.lit '6', .cls '4' '9', .lit '.'],
    lits "100." ++ [.cls '7' '9', .cls '0' '9', .lit '.'],
    lits "100." ++ [.lit '1', .cls '0' '1', .cls '0' '9', .lit '.'],
    lits "100." ++ [.lit '1', .lit '2', .cls '0' '7', .lit '.']], false⟩

/-- Source regex `/^127\./` (127.0.0.0\/8, localhost). -/
def reLoopback : RangePat := ⟨[lits "127."], false⟩

/-- Source regex `/^169\.254\./` (169.254.0.0\/16, link-local). -/
def reLinkLocal : RangePat := ⟨[lits "169.254."], false⟩

/-- Source regex `/^172\.(1[6-9]|2[0-9]|3[01])\./` (172.16.0.0\/12, private). -/
def rePriv172 : RangePat :=
  ⟨[lits "172." ++ [.lit '1', .cls '6' '9', .lit '.'],
    lits "172." ++ [.lit '2', .cls '0' '9', .lit '.'],
    lits "172." ++ [.lit '3', .cls '0' '1', .lit '.']], false⟩

/-- Source regex `/^192\.0\.0\./` (192.0.0.0\/24, reserved). -/
def reReserved192 : RangePat := ⟨[lits "192.0.0."], false⟩

/-- Source regex `/^192\.168\./` (192.168.0.0\/16, private). -/
def rePriv192 : RangePat := ⟨[lits "192.168."], false⟩

/-- Source regex `/^198\.(1[8-9])\./` (198.18.0.0\/15, benchmark testing). -/
def reBench : RangePat := ⟨[lits "198." ++ [.lit '1', .cls '8' '9', .lit '.']], false⟩

/-- Source regex `/^22[4-9]\./` (224.0.0.0\/4, multicast). -/
def reMcast1 : RangePat := ⟨[lits "22" ++ [.cls '4' '9', .lit '.']], false⟩

/-- Source regex `/^2[3-5][0-9]\./` (224.0.0.0\/4 continued). -/
def reMcast2 : RangePat := ⟨[[.lit '2', .cls '3' '5', .cls '0' '9', .lit '.']], false⟩

/-- Source regex `/^255\.255\.255\.255$/` (broadcast). -/
def reBroadcast : RangePat := ⟨[lits "255.255.255.255"], true⟩

/-- Source regex `/^::1$/` (IPv6 localhost). -/
def reV6Loopback : RangePat := ⟨[lits "::1"], true⟩

/-- Source regex `/^::ffff:127\./` (IPv4-mapped IPv6 localhost). -/
def reMapped127 : RangePat := ⟨[lits "::ffff:127."], false⟩

/-- Source regex `/^::ffff:10\./` (IPv4-mapped IPv6 private). -/
def reMapped10 : RangePat := ⟨[lits "::ffff:10."], false⟩

/-- Source regex `/^::ffff:172\.(1[6-9]|2[0-9]|3[01])\./` (IPv4-mapped IPv6 private). -/
def reMapped172 : RangePat :=
  ⟨[lits "::ffff:172." ++ [.lit '1', .cls '6' '9', .lit '.'],
    lits "::ffff:172." ++ [.lit '2', .cls '0' '9', .lit '.'],
    lits "::ffff:172." ++ [.lit '3', .cls '0' '1', .lit '.']], false⟩

/-- Source regex `/^::ffff:192\.168\./` (IPv4-mapped IPv6 private). -/
def reMapped192 : RangePat := ⟨[lits "::ffff:192.168."], false⟩

/-- Source regex `/^fc00:/` (IPv6 unique local, commented "fc00::\/8" in source). -/
def reUniqueLocalFc : RangePat := ⟨[lits "fc00:"], false⟩

/-- Source regex `/^fd00:/` (IPv6 unique local, commented "fd00::\/8" in source). -/
def reUniqueLocalFd : RangePat := ⟨[lits "fd00:"], false⟩

/-- Source regex `/^fe80:/` (IPv6 link-local). -/
def reV6LinkLocal : RangePat := ⟨[lits "fe80:"], false⟩

/-- The `BLOCKED_IP_RANGES` array, in source order. -/
def BLOCKED_IP_RANGES : List RangePat :=
  [reZero, reTen, reCgn, reLoopback, reLinkLocal, rePriv172, reReserved192,
   rePriv192, reBench, reMcast1, reMcast2, reBroadcast, reV6Loopback,
   reMapped127, reMapped10, reMapped172, reMapped192, reUniqueLocalFc,
   reUniqueLocalFd, reV6LinkLocal]

/-- Source `isBlockedIP(ip)`:
`return this.BLOCKED_IP_RANGES.some(range => range.test(ip));`. -/
def isBlockedIP (ip : String) : Bool :=
  BLOCKED_IP_RANGES.any fun r => rangeMatches r ip.data

/-- Source `METADATA_IPS` set (AWS\/GCP\/Azure, Oracle, Alibaba metadata). -/
def METADATA_IPS : List String :=
  ["169.254.169.254", "169.254.169.123", "100.100.100.200"]

/-! ### `isIPAddress`: the two shape regexes -/

def isHexDigitChar (c : Char) : Bool :=
  ('0' ≤ c && c ≤ '9') || ('a' ≤ c && c ≤ 'f') || ('A' ≤ c && c ≤ 'F')

/-- Consume up to `n` decimal digits greedily. -/
def takeDigits : Nat → List Char → List Char
  | 0, cs => cs
  | _ + 1, [] => []
  | n + 1, c :: cs => if c.isDigit then takeDigits n cs else c :: cs

/-- Match `\d{1,3}\.` at the head, returning the remainder.  Greedy
matching coincides with regex backtracking here: a digit can never match
the `\.` that follows. -/
def octetDot (cs : List Char) : Option (List Char) :=
  match cs with
  | c :: rest =>
    if c.isDigit then
      match takeDigits 2 rest with
      | '.' :: r2 => some r2
      | _ => none
    else none
  | [] => none

/-- Match `\d{1,3}$`. -/
def finalOctet (cs : List Char) : Bool :=
  match cs with
  | c :: rest => c.isDigit && (takeDigits 2 rest).isEmpty
  | [] => false

/-- Source regex `/^(?:\d{1,3}\.){3}\d{1,3}$/` (IPv4 dotted-quad shape;
note it accepts numerically invalid octets such as 999). -/
def ipv4Shape (cs : List Char) : Bool :=
  match octetDot cs with
  | some r1 =>
    match octetDot r1 with
    | some r2 =>
      match octetDot r2 with
      | some r3 => finalOctet r3
      | none => false
    | none => false
  | none => false

/-- Consume up to `n` hex digits greedily. -/
def takeHex : Nat → List Char → List Char
  | 0, cs => cs
  | _ + 1, [] => []
  | n + 1, c :: cs => if isHexDigitChar c then takeHex n cs else c :: cs

/-- Match `[0-9a-fA-F]{0,4}:` at the head (one group iteration). -/
def hexGroup (cs : List Char) : Option (List Char) :=
  match takeHex 4 cs with
  | ':' :: rest => some rest
  | _ => none

/-- Up to `n` further greedy group iterations. -/
def hexGroups : Nat → List Char → List Char
  | 0, cs => cs
  | n + 1, cs =>
    match hexGroup cs with
    | some rest => hexGroups n rest
    | none => cs

/-- Source regex `/^(?:[0-9a-fA-F]{0,4}:){1,7}[0-9a-fA-F]{0,4}$/` (loose
IPv6 shape).  Greedy matching coincides with regex backtracking for this
star-free bounded-repetition pattern: a hex digit never matches `:` and
the final element must consume the whole remainder. -/
def ipv6Shape (cs : List Char) : Bool :=
  match hexGroup cs with
  | some rest => (takeHex 4 (hexGroups 6 rest)).isEmpty
  | none => false

/-- Source `isIPAddress(hostname)`: IPv4 dotted-quad shape or loose IPv6
colon shape. -/
def isIPAddress (hostname : String) : Bool :=
  ipv4Shape hostname.data || ipv6Shape hostname.data

example : isIPAddress "127.0.0.1" = true := by decide
example : isIPAddress "999.1.1.1" = true := by decide
example : isIPAddress "example.com" = false := by decide
example : isIPAddress "::1" = true := by decide
example : isBlockedIP "127.0.0.1" = true := by decide
example : isBlockedIP "8.8.8.8" = false := by decide
example : isBlockedIP "100.100.100.200" = true := by decide
example : isBlockedIP "fc01::1" = false := by decide

/-! ### Validation pipeline -/

/-- Error taxonomy: one constructor per distinct `throw new Error(...)`
site of the source relevant to validation and fetching.
`fetchFailed e` models the catch-all of `fetchHTML` re-throwing
"Failed to fetch website: " prefixed to the original message; it keeps
the original error as a structured payload.  `fuelExhausted` is an
artifact of bounding the (in the source, unbounded) redirect recursion
by fuel. -/
inductive VErr where
  | invalidURL
  | protocolNotAllowed
  | portNotAllowed (port : Nat)
  | blockedAddress (ip : String)
  | metadataBlocked
  | resolutionFailure (hostname : String)
  | badContentType (ct : String)
  | httpFailure (status : Nat)
  | fetchFailed (cause : VErr)
  | fuelExhausted
  deriving DecidableEq, Repr

/-- One HTTP exchange as seen by `fetchHTML` after axios resolves:
status, the `location` and `content-type` headers, and the body. -/
structure Resp where
  status : Nat
  location : Option String
  contentType : Option String
  body : String
  deriving DecidableEq, Repr

/-- The result of WHATWG `new URL(raw)` on a raw string: the fields the
source reads, plus `href`, the serialization `parsedUrl.toString()`
returns.  `port?` is the explicit port, `none` when the URL carries no
port (WHATWG leaves `url.port` empty for the scheme default). -/
structure ParsedURL where
  protocol : String
  hostname : String
  port? : Option Nat
  href : String
  deriving DecidableEq, Repr

/-- Oracles for the effectful collaborators of the pipeline: `parse`
models `new URL(raw)` (`none` = parse throws), `dns4`\/`dns6` model
`dnsResolve4`\/`dnsResolve6` (`none` = the promise rejects), `net`
models a completed axios GET exchange, `resolveRel` models WHATWG
relative-reference resolution for non-absolute `Location` values. -/
structure Env where
  parse : String → Option ParsedURL
  dns4 : String → Option (List String)
  dns6 : String → Option (List String)
  net : String → Resp
  resolveRel : String → String → String

/-- The body of the `for (const ip of addresses)` loops of
`validateHostname`: the first address that is blocked (or, when
`checkMeta` is set, in `METADATA_IPS`) raises the corresponding error.
The IPv6 loop of the source has no metadata check, hence the flag. -/
def checkList (checkMeta : Bool) : List String → Option VErr
  | [] => none
  | ip :: rest =>
    if isBlockedIP ip then some (.blockedAddress ip)
    else if checkMeta && METADATA_IPS.contains ip then some .metadataBlocked
    else checkList checkMeta rest

/-- The IPv4 `try` block of `validateHostname`: `ipv4Success` is set
exactly when `dnsResolve4` resolved *and* the address loop finished
without throwing.  The surrounding `catch (dnsError)` swallows every
error raised inside the `try` — including the blocked-address and
metadata throws of the loop — so no error propagates from here. -/
def resolutionOk4 (env : Env) (hostname : String) : Bool :=
  match env.dns4 hostname with
  | some addrs => (checkList true addrs).isNone
  | none => false

/-- The IPv6 `try` block of `validateHostname`, analogously (its loop
checks `isBlockedIP` only). -/
def resolutionOk6 (env : Env) (hostname : String) : Bool :=
  match env.dns6 hostname with
  | some addrs => (checkList false addrs).isNone
  | none => false

/-- Source `validateHostname(hostname)`.  Literal IPs are classified
directly (blocked-range check first, then metadata set).  Otherwise both
DNS families are attempted with all errors swallowed per family, and
`Unable to resolve hostname` is raised iff neither family succeeded; the
outer `try\/catch` of the source only re-throws and is the identity. -/
def validateHostname (env : Env) (hostname : String) : Except VErr Unit :=
  if isIPAddress hostname then
    if isBlockedIP hostname then .error (.blockedAddress hostname)
    else if METADATA_IPS.contains hostname then .error .metadataBlocked
    else .ok ()
  else
    if !resolutionOk4 env hostname && !resolutionOk6 env hostname then
      .error (.resolutionFailure hostname)
    else .ok ()

/-- The `ALLOWED_PORTS` set of the source. -/
def ALLOWED_PORTS : List Nat := [80, 443, 8080, 8443]

/-- Source
`const port = parsedUrl.port ? parseInt(parsedUrl.port) : (parsedUrl.protocol === 'https:' ? 443 : 80);`. -/
def effectivePort (u : ParsedURL) : Nat :=
  match u.port? with
  | some p => p
  | none => if u.protocol == "https:" then 443 else 80

/-- Source `validateAndSanitizeUrl(url)`, applied to the outcome of
`new URL(url)`: parse failure, then protocol allow-list, then port
allow-list, then hostname validation; on success it returns
`parsedUrl.toString()` (the `href` field of the parse). -/
def validateAndSanitizeUrl (env : Env) (parsed : Option ParsedURL) : Except VErr String :=
  match parsed with
  | none => .error .invalidURL
  | some u =>
    if !(u.protocol == "http:" || u.protocol == "https:") then
      .error .protocolNotAllowed
    else
      let port := effectivePort u
      if !(ALLOWED_PORTS.contains port) then .error (.portNotAllowed port)
      else
        match validateHostname env u.hostname with
        | .error e => .error e
        | .ok _ => .ok u.href

/-! ### Safe fetcher -/

/-- Matches `needle` at the head of `hay`. -/
def subAt : List Char → List Char → Bool
  | [], _ => true
  | _ :: _, [] => false
  | n :: ns, h :: hs => n == h && subAt ns hs

/-- JavaScript `hay.includes(needle)`. -/
def hasSub (needle : List Char) : List Char → Bool
  | [] => needle.isEmpty
  | h :: hs => subAt needle (h :: hs) || hasSub needle hs

def strIncludes (hay needle : String) : Bool := hasSub needle.data hay.data

/-- `s.startsWith pre`, via the structural prefix matcher. -/
def strStarts (s pre : String) : Bool := subAt pre.data s.data

/-- Source `new URL(location, url).toString()`: an absolute http(s)
`Location` resolves to itself; other cases are delegated to the
relative-resolution oracle (the theorems below only use absolute
`Location` headers). -/
def resolveLocation (env : Env) (location url : String) : String :=
  if strStarts location "http://" || strStarts location "https://" then location
  else env.resolveRel location url

/-- The content-type gate at the end of `fetchHTML`: a declared type
containing neither `text/html` nor `application/xhtml+xml` raises, and
the raise is caught by the catch-all of `fetchHTML` itself, hence
arrives wrapped. -/
def contentTypeGate (resp : Resp) : Except VErr String :=
  match resp.contentType with
  | some ct =>
    if !strIncludes ct "text/html" && !strIncludes ct "application/xhtml+xml" then
      .error (.fetchFailed (.badContentType ct))
    else .ok resp.body
  | none => .ok resp.body

/-- Source `fetchHTML(url)`, with the redirect recursion bounded by
fuel (the source recursion is unbounded), also returning the list of
URLs a GET was issued to.  `validateStatus` accepts every status `< 400`
and axios rejects otherwise (modelled as `httpFailure`).  On a redirect
status with a `Location` header, the target is resolved, re-validated —
a validation error is caught by the catch-all of this very call and
wrapped (`fetchFailed`) — and on success fetched recursively; the
recursive promise is returned without `await`, so its errors are not
wrapped again.  There is no redirect counter anywhere. -/
def fetchHTML (env : Env) : Nat → String → Except VErr String × List String
  | 0, _ => (.error .fuelExhausted, [])
  | n + 1, url =>
    let resp := env.net url
    if 400 ≤ resp.status then (.error (.httpFailure resp.status), [url])
    else if 300 ≤ resp.status then
      match resp.location with
      | some location =>
        let redirectUrl := resolveLocation env location url
        match validateAndSanitizeUrl env (env.parse redirectUrl) with
        | .error e => (.error (.fetchFailed e), [url])
        | .ok validated =>
          let out := fetchHTML env n validated
          (out.1, url :: out.2)
      | none => (contentTypeGate resp, [url])
    else (contentTypeGate resp, [url])

/-! ### Scorer (`calculateSEOScore`) -/

inductive IssueType where
  | error | warning | success
  deriving DecidableEq, Repr

structure SEOIssue where
  type : IssueType
  message : String
  deriving DecidableEq, Repr

inductive TagStatus where
  | good | warning | missing
  deriving DecidableEq, Repr

/-- One entry of the `tags` report.  The source field `recommendation`
is named `advice` here; content and order are unchanged. -/
structure MetaTag where
  name : String
  content : String
  status : TagStatus
  advice : Option String
  deriving DecidableEq, Repr

/-- The `HTMLMetaData` record produced by `parseMetaTags` (each field is
`undefined` or a string; `parseMetaTags` maps empty strings to
`undefined`, but the scorer is modelled on arbitrary records). -/
structure HTMLMetaData where
  title : Option String := none
  description : Option String := none
  ogTitle : Option String := none
  ogDescription : Option String := none
  ogImage : Option String := none
  twitterTitle : Option String := none
  twitterDescription : Option String := none
  twitterImage : Option String := none
  canonical : Option String := none
  robots : Option String := none
  viewport : Option String := none

/-- JavaScript truthiness of an optional string field: present and
non-empty. -/
def truthy : Option String → Bool
  | some s => !(s == "")
  | none => false

/-- Output of one analysis block: score penalty, issues pushed, tags
pushed (in push order). -/
structure ScoreOut where
  penalty : Int
  issues : List SEOIssue
  tags : List MetaTag
  deriving Repr

/-- The title-tag block of `calculateSEOScore`. -/
def titleOut (x : Option String) : ScoreOut :=
  if truthy x then
    let t := x.getD ""
    if t.length < 30 then
      ⟨15, [⟨.warning, "Title too short (" ++ toString t.length ++ " chars)"⟩],
        [⟨"title", t, .warning,
          some "Title should be 30-60 characters long for optimal display in search results"⟩]⟩
    else if 60 < t.length then
      ⟨10, [⟨.warning, "Title too long (" ++ toString t.length ++ " chars)"⟩],
        [⟨"title", t, .warning,
          some "Title should be 30-60 characters long to avoid truncation in search results"⟩]⟩
    else
      ⟨0, [⟨.success, "Title tag length is optimal"⟩], [⟨"title", t, .good, none⟩]⟩
  else
    ⟨25, [⟨.error, "Missing title tag"⟩],
      [⟨"title", "", .missing,
        some "Add a unique, descriptive title tag (30-60 characters) to help search engines understand your page"⟩]⟩

/-- The meta-description block of `calculateSEOScore`. -/
def descriptionOut (x : Option String) : ScoreOut :=
  if truthy x then
    let d := x.getD ""
    if d.length < 120 then
      ⟨10, [⟨.warning, "Meta description too short (" ++ toString d.length ++ " chars)"⟩],
        [⟨"description", d, .warning,
          some "Meta description should be 120-160 characters for optimal SERP display"⟩]⟩
    else if 160 < d.length then
      ⟨8, [⟨.warning, "Meta description too long (" ++ toString d.length ++ " chars)"⟩],
        [⟨"description", d, .warning,
          some "Meta description should be 120-160 characters to avoid truncation"⟩]⟩
    else
      ⟨0, [⟨.success, "Meta description length is optimal"⟩],
        [⟨"description", d, .good, none⟩]⟩
  else
    ⟨20, [⟨.error, "Missing meta description"⟩],
      [⟨"description", "", .missing,
        some "Add a compelling meta description (120-160 characters) to improve click-through rates"⟩]⟩

/-- The Open Graph title\/description block of `calculateSEOScore`. -/
def ogOut (t d : Option String) : ScoreOut :=
  if truthy t && truthy d then
    ⟨0, [⟨.success, "Open Graph tags configured"⟩],
      [⟨"og:title", t.getD "", .good, none⟩, ⟨"og:description", d.getD "", .good, none⟩]⟩
  else
    ⟨15, [⟨.warning, "Incomplete Open Graph tags"⟩],
      (if !truthy t then
        [⟨"og:title", "", .missing, some "Add Open Graph title for better social media sharing"⟩]
       else []) ++
      (if !truthy d then
        [⟨"og:description", "", .missing,
          some "Add Open Graph description for better social media sharing"⟩]
       else [])⟩

/-- The Open Graph image block of `calculateSEOScore`. -/
def ogImageOut (x : Option String) : ScoreOut :=
  if truthy x then ⟨0, [], [⟨"og:image", x.getD "", .good, none⟩]⟩
  else
    ⟨10, [⟨.warning, "Missing Open Graph image"⟩],
      [⟨"og:image", "", .missing,
        some "Add an Open Graph image (1200x630px recommended) for better social media sharing"⟩]⟩

/-- The canonical-URL block of `calculateSEOScore`. -/
def canonicalOut (x : Option String) : ScoreOut :=
  if truthy x then
    ⟨0, [⟨.success, "Canonical URL specified"⟩], [⟨"canonical", x.getD "", .good, none⟩]⟩
  else
    ⟨8, [⟨.warning, "Missing canonical URL"⟩],
      [⟨"canonical", "", .missing, some "Add canonical URL to avoid duplicate content issues"⟩]⟩

/-- The viewport block of `calculateSEOScore`. -/
def viewportOut (x : Option String) : ScoreOut :=
  if truthy x then ⟨0, [], [⟨"viewport", x.getD "", .good, none⟩]⟩
  else
    ⟨5, [⟨.warning, "Missing viewport meta tag"⟩],
      [⟨"viewport", "", .missing, some "Add viewport meta tag for mobile responsiveness"⟩]⟩

/-- The robots block of `calculateSEOScore` (informational, no penalty,
no issue). -/
def robotsOut (x : Option String) : ScoreOut :=
  if truthy x then ⟨0, [], [⟨"robots", x.getD "", .good, none⟩]⟩
  else
    ⟨0, [],
      [⟨"robots", "", .missing,
        some "Consider adding robots meta tag to control search engine crawling"⟩]⟩

/-- Source `calculateSEOScore(metaData, url)`: the blocks run in source
order, each subtracting its penalty from the running score (start 100)
and pushing its issues and tags; the final score is clamped at 0 by
`Math.max`. -/
def calculateSEOScore (md : HTMLMetaData) : Int × List SEOIssue × List MetaTag :=
  let pieces := [titleOut md.title, descriptionOut md.description,
    ogOut md.ogTitle md.ogDescription, ogImageOut md.ogImage,
    canonicalOut md.canonical, viewportOut md.viewport, robotsOut md.robots]
  (max 0 (100 - (pieces.map ScoreOut.penalty).foldl (fun a b => a + b) 0),
   (pieces.map ScoreOut.issues).flatten,
   (pieces.map ScoreOut.tags).flatten)

/-! ### Helper lemmas for the classifier proofs -/

theorem data_append (s t : String) : (s ++ t).data = s.data ++ t.data := by
  cases s; cases t; rfl

theorem strAppendAssoc (a b c : String) : a ++ b ++ c = a ++ (b ++ c) := by
  cases a with | mk la =>
  cases b with | mk lb =>
  cases c with | mk lc =>
  show String.mk (la ++ lb ++ lc) = String.mk (la ++ (lb ++ lc))
  rw [List.append_assoc]

theorem matchAt_append (alt : List Pat) (pre rest : List Char)
    (h : matchAt alt pre = some []) : matchAt alt (pre ++ rest) = some rest := by
  induction alt generalizing pre with
  | nil =>
    simp only [matchAt, Option.some.injEq] at h
    subst h
    rfl
  | cons p ps ih =>
    cases pre with
    | nil => simp [matchAt] at h
    | cons c cs =>
      simp only [matchAt] at h ⊢
      by_cases hp : patMatch p c = true
      · rw [if_pos hp] at h ⊢
        exact ih cs h
      · rw [if_neg hp] at h
        exact absurd h (by simp)

/-- Does some alternative of `r` consume exactly the whole of `pre`? -/
def fullAltExists (r : RangePat) (pre : String) : Bool :=
  r.alts.any fun alt => matchAt alt pre.data == some []

/-- A non-anchored entry of the Blocked Range Table that fully matches a
prefix matches every extension of it, so `isBlockedIP` accepts every
string extending such a prefix. -/
theorem blocked_ofFull (r : RangePat) (pre : String) (hf : fullAltExists r pre = true)
    (hmem : r ∈ BLOCKED_IP_RANGES) (hanch : r.anchored = false) (rest : String) :
    isBlockedIP (pre ++ rest) = true := by
  unfold fullAltExists at hf
  rw [List.any_eq_true] at hf
  obtain ⟨alt, halt, hma⟩ := hf
  have hma' : matchAt alt pre.data = some [] := eq_of_beq hma
  unfold isBlockedIP
  rw [List.any_eq_true]
  refine ⟨r, hmem, ?_⟩
  unfold rangeMatches
  rw [List.any_eq_true]
  refine ⟨alt, halt, ?_⟩
  rw [data_append, matchAt_append alt _ _ hma']
  simp [hanch]

/-- Canonical dotted-quad text of four octets. -/
def ip4 (a b c d : Nat) : String :=
  toString a ++ "." ++ toString b ++ "." ++ toString c ++ "." ++ toString d

example : ip4 10 0 0 1 = "10.0.0.1" := by decide
example : isBlockedIP (ip4 192 168 1 7) = true := by decide

/-! ### Claim C4: coverage of the Blocked Range Table -/

/-- Claim C4, counterexample.  The textual IPv6 address `fc01::1` lies
in `fc00::/7` (its first hextet `0xfc01` shares the 7-bit prefix of
`0xfc00`, the arithmetic conjunct), and `fe81::1` lies in `fe80::/10`
(10-bit prefix of `0xfe80`), yet `isBlockedIP` rejects neither: the
source patterns `/^fc00:/`, `/^fd00:/` and `/^fe80:/` only test the
literal first hextet, not the CIDR prefix.  So the claim that every
address of `fc00::/7` and `fe80::/10` is classified as blocked is false. -/
theorem c4_counterexample :
    isIPAddress "fc01::1" = true ∧ (0xfc01 : Nat) / 2 ^ 9 = 0xfc00 / 2 ^ 9 ∧
      isBlockedIP "fc01::1" = false ∧
      isIPAddress "fe81::1" = true ∧ (0xfe81 : Nat) / 2 ^ 6 = 0xfe80 / 2 ^ 6 ∧
      isBlockedIP "fe81::1" = false := by
  decide

set_option maxRecDepth 8000 in
/-- Claim C4 (amended).  The classifier blocks, in textual form: every
address of the IPv4 ranges 0.0.0.0\/8, 10.0.0.0\/8, 100.64.0.0\/10,
127.0.0.0\/8, 169.254.0.0\/16, 172.16.0.0\/12, 192.0.0.0\/24,
192.168.0.0\/16, 198.18.0.0\/15, 224.0.0.0\/4 and 255.255.255.255\/32;
and on the IPv6 side exactly-textual `::1`, every string extending the
IPv4-mapped prefixes `::ffff:127.`, `::ffff:10.`, `::ffff:172.(16-31).`
and `::ffff:192.168.`, and every string extending the literal hextet
prefixes `fc00:`, `fd00:` and `fe80:` (hence `fc00::/16 ∪ fd00::/16` of
the unique-local space and `fe80::/16` of the link-local space, not the
full `fc00::/7` and `fe80::/10`). -/
theorem c4_blocked_ranges_amended :
    (∀ b c d : Nat, b ≤ 255 → c ≤ 255 → d ≤ 255 → isBlockedIP (ip4 0 b c d) = true) ∧
    (∀ b c d : Nat, b ≤ 255 → c ≤ 255 → d ≤ 255 → isBlockedIP (ip4 10 b c d) = true) ∧
    (∀ b c d : Nat, 64 ≤ b → b ≤ 127 → c ≤ 255 → d ≤ 255 → isBlockedIP (ip4 100 b c d) = true) ∧
    (∀ b c d : Nat, b ≤ 255 → c ≤ 255 → d ≤ 255 → isBlockedIP (ip4 127 b c d) = true) ∧
    (∀ c d : Nat, c ≤ 255 → d ≤ 255 → isBlockedIP (ip4 169 254 c d) = true) ∧
    (∀ b c d : Nat, 16 ≤ b → b ≤ 31 → c ≤ 255 → d ≤ 255 → isBlockedIP (ip4 172 b c d) = true) ∧
    (∀ d : Nat, d ≤ 255 → isBlockedIP (ip4 192 0 0 d) = true) ∧
    (∀ c d : Nat, c ≤ 255 → d ≤ 255 → isBlockedIP (ip4 192 168 c d) = true) ∧
    (∀ b c d : Nat, 18 ≤ b → b ≤ 19 → c ≤ 255 → d ≤ 255 → isBlockedIP (ip4 198 b c d) = true) ∧
    (∀ a b c d : Nat, 224 ≤ a → a ≤ 239 → b ≤ 255 → c ≤ 255 → d ≤ 255 →
      isBlockedIP (ip4 a b c d) = true) ∧
    isBlockedIP "255.255.255.255" = true ∧
    isBlockedIP "::1" = true ∧
    (∀ rest : String, isBlockedIP ("::ffff:127." ++ rest) = true) ∧
    (∀ rest : String, isBlockedIP ("::ffff:10." ++ rest) = true) ∧
    (∀ b : Nat, 16 ≤ b → b ≤ 31 → ∀ rest : String,
      isBlockedIP ("::ffff:172." ++ toString b ++ "." ++ rest) = true) ∧
    (∀ rest : String, isBlockedIP ("::ffff:192.168." ++ rest) = true) ∧
    (∀ rest : String, isBlockedIP ("fc00:" ++ rest) = true) ∧
    (∀ rest : String, isBlockedIP ("fd00:" ++ rest) = true) ∧
    (∀ rest : String, isBlockedIP ("fe80:" ++ rest) = true) := by
  refine ⟨?_, ?_, ?_, ?_, ?_, ?_, ?_, ?_, ?_, ?_, ?_, ?_, ?_, ?_, ?_, ?_, ?_, ?_, ?_⟩
  · intro b c d _ _ _
    have hsplit : ip4 0 b c d =
        (toString (0 : Nat) ++ ".") ++ (toString b ++ "." ++ toString c ++ "." ++ toString d) := by
      simp only [ip4, strAppendAssoc]
    rw [hsplit]
    exact blocked_ofFull reZero (toString (0 : Nat) ++ ".") (by decide) (by decide) rfl _
  · intro b c d _ _ _
    have hsplit : ip4 10 b c d =
        (toString (10 : Nat) ++ ".") ++ (toString b ++ "." ++ toString c ++ "." ++ toString d) := by
      simp only [ip4, strAppendAssoc]
    rw [hsplit]
    exact blocked_ofFull reTen (toString (10 : Nat) ++ ".") (by decide) (by decide) rfl _
  · intro b c d hb1 hb2 _ _
    have key : ∀ x, x < 128 → 64 ≤ x →
        fullAltExists reCgn (toString (100 : Nat) ++ "." ++ toString x ++ ".") = true := by decide
    have hsplit : ip4 100 b c d =
        (toString (100 : Nat) ++ "." ++ toString b ++ ".") ++
          (toString c ++ "." ++ toString d) := by
      simp only [ip4, strAppendAssoc]
    rw [hsplit]
    exact blocked_ofFull reCgn _ (key b (by omega) hb1) (by decide) rfl _
  · intro b c d _ _ _
    have hsplit : ip4 127 b c d =
        (toString (127 : Nat) ++ ".") ++ (toString b ++ "." ++ toString c ++ "." ++ toString d) := by
      simp only [ip4, strAppendAssoc]
    rw [hsplit]
    exact blocked_ofFull reLoopback (toString (127 : Nat) ++ ".") (by decide) (by decide) rfl _
  · intro c d _ _
    have hsplit : ip4 169 254 c d =
        (toString (169 : Nat) ++ "." ++ toString (254 : Nat) ++ ".") ++
          (toString c ++ "." ++ toString d) := by
      simp only [ip4, strAppendAssoc]
    rw [hsplit]
    exact blocked_ofFull reLinkLocal _ (by decide) (by decide) rfl _
  · intro b c d hb1 hb2 _ _
    have key : ∀ x, x < 32 → 16 ≤ x →
        fullAltExists rePriv172 (toString (172 : Nat) ++ "." ++ toString x ++ ".") = true := by
      decide
    have hsplit : ip4 172 b c d =
        (toString (172 : Nat) ++ "." ++ toString b ++ ".") ++
          (toString c ++ "." ++ toString d) := by
      simp only [ip4, strAppendAssoc]
    rw [hsplit]
    exact blocked_ofFull rePriv172 _ (key b (by omega) hb1) (by decide) rfl _
  · intro d _
    have hsplit : ip4 192 0 0 d =
        (toString (192 : Nat) ++ "." ++ toString (0 : Nat) ++ "." ++ toString (0 : Nat) ++ ".") ++
          toString d := by
      simp only [ip4, strAppendAssoc]
    rw [hsplit]
    exact blocked_ofFull reReserved192 _ (by decide) (by decide) rfl _
  · intro c d _ _
    have hsplit : ip4 192 168 c d =
        (toString (192 : Nat) ++ "." ++ toString (168 : Nat) ++ ".") ++
          (toString c ++ "." ++ toString d) := by
      simp only [ip4, strAppendAssoc]
    rw [hsplit]
    exact blocked_ofFull rePriv192 _ (by decide) (by decide) rfl _
  · intro b c d hb1 hb2 _ _
    have key : ∀ x, x < 20 → 18 ≤ x →
        fullAltExists reBench (toString (198 : Nat) ++ "." ++ toString x ++ ".") = true := by
      decide
    have hsplit : ip4 198 b c d =
        (toString (198 : Nat) ++ "." ++ toString b ++ ".") ++
          (toString c ++ "." ++ toString d) := by
      simp only [ip4, strAppendAssoc]
    rw [hsplit]
    exact blocked_ofFull reBench _ (key b (by omega) hb1) (by decide) rfl _
  · intro a b c d ha1 ha2 _ _ _
    have key : ∀ x, x < 240 → 224 ≤ x →
        (fullAltExists reMcast1 (toString x ++ ".") ||
          fullAltExists reMcast2 (toString x ++ ".")) = true := by decide
    have hsplit : ip4 a b c d =
        (toString a ++ ".") ++ (toString b ++ "." ++ toString c ++ "." ++ toString d) := by
      simp only [ip4, strAppendAssoc]
    rw [hsplit]
    have hk := key a (by omega) ha1
    rw [Bool.or_eq_true] at hk
    rcases hk with h | h
    · exact blocked_ofFull reMcast1 _ h (by decide) rfl _
    · exact blocked_ofFull reMcast2 _ h (by decide) rfl _
  · decide
  · decide
  · exact fun rest => blocked_ofFull reMapped127 "::ffff:127." (by decide) (by decide) rfl rest
  · exact fun rest => blocked_ofFull reMapped10 "::ffff:10." (by decide) (by decide) rfl rest
  · intro b hb1 hb2 rest
    have key : ∀ x, x < 32 → 16 ≤ x →
        fullAltExists reMapped172 ("::ffff:172." ++ toString x ++ ".") = true := by decide
    have hsplit : "::ffff:172." ++ toString b ++ "." ++ rest =
        ("::ffff:172." ++ toString b ++ ".") ++ rest := by
      simp only [strAppendAssoc]
    rw [hsplit]
    exact blocked_ofFull reMapped172 _ (key b (by omega) hb1) (by decide) rfl rest
  · exact fun rest => blocked_ofFull reMapped192 "::ffff:192.168." (by decide) (by decide) rfl rest
  · exact fun rest => blocked_ofFull reUniqueLocalFc "fc00:" (by decide) (by decide) rfl rest
  · exact fun rest => blocked_ofFull reUniqueLocalFd "fd00:" (by decide) (by decide) rfl rest
  · exact fun rest => blocked_ofFull reV6LinkLocal "fe80:" (by decide) (by decide) rfl rest

/-- Claim C4, witness: concrete instances of the amended coverage
theorem, one per quantified conjunct family. -/
theorem c4_blocked_ranges_amended_witness :
    isBlockedIP (ip4 0 1 2 3) = true ∧
    isBlockedIP (ip4 10 255 0 1) = true ∧
    isBlockedIP (ip4 100 100 100 200) = true ∧
    isBlockedIP (ip4 127 0 0 1) = true ∧
    isBlockedIP (ip4 169 254 169 254) = true ∧
    isBlockedIP (ip4 172 31 255 255) = true ∧
    isBlockedIP (ip4 192 0 0 8) = true ∧
    isBlockedIP (ip4 192 168 1 1) = true ∧
    isBlockedIP (ip4 198 19 0 1) = true ∧
    isBlockedIP (ip4 239 255 255 250) = true ∧
    isBlockedIP ("::ffff:172." ++ toString (16 : Nat) ++ "." ++ "0.1") = true ∧
    isBlockedIP ("fc00:" ++ ":db8::1") = true :=
  ⟨c4_blocked_ranges_amended.1 1 2 3 (by decide) (by decide) (by decide),
   c4_blocked_ranges_amended.2.1 255 0 1 (by decide) (by decide) (by decide),
   c4_blocked_ranges_amended.2.2.1 100 100 200 (by decide) (by decide) (by decide) (by decide),
   c4_blocked_ranges_amended.2.2.2.1 0 0 1 (by decide) (by decide) (by decide),
   c4_blocked_ranges_amended.2.2.2.2.1 169 254 (by decide) (by decide),
   c4_blocked_ranges_amended.2.2.2.2.2.1 31 255 255 (by decide) (by decide) (by decide) (by decide),
   c4_blocked_ranges_amended.2.2.2.2.2.2.1 8 (by decide),
   c4_blocked_ranges_amended.2.2.2.2.2.2.2.1 1 1 (by decide) (by decide),
   c4_blocked_ranges_amended.2.2.2.2.2.2.2.2.1 19 0 1 (by decide) (by decide) (by decide) (by decide),
   c4_blocked_ranges_amended.2.2.2.2.2.2.2.2.2.1 239 255 255 250 (by decide) (by decide)
     (by decide) (by decide) (by decide),
   c4_blocked_ranges_amended.2.2.2.2.2.2.2.2.2.2.2.2.2.2.1 16 (by decide) (by decide) "0.1",
   c4_blocked_ranges_amended.2.2.2.2.2.2.2.2.2.2.2.2.2.2.2.2.1 ":db8::1"⟩

deriving instance DecidableEq for Except

/-! ### Claim C1: blocked resolved addresses -/

/-- DNS environment where `internal.example` has the A record 10.0.0.1
(blocked, private) and the AAAA record 2001:db8::1 (not blocked). -/
def envC1 : Env :=
  { parse := fun _ => none
    dns4 := fun h => if h == "internal.example" then some ["10.0.0.1"] else none
    dns6 := fun h => if h == "internal.example" then some ["2001:db8::1"] else none
    net := fun _ => ⟨200, none, some "text/html", ""⟩
    resolveRel := fun l _ => l }

/-- Same host, but the AAAA lookup fails. -/
def envC1only4 : Env :=
  { parse := fun _ => none
    dns4 := fun h => if h == "internal.example" then some ["10.0.0.1"] else none
    dns6 := fun _ => none
    net := fun _ => ⟨200, none, some "text/html", ""⟩
    resolveRel := fun l _ => l }

/-- Claim C1, code-bug evidence.  The source throws
"Access to IP ... is blocked for security reasons" inside the `for` loop
of the IPv4 `try` block of `validateHostname`, but that throw is caught
by the same `catch (dnsError)` that swallows DNS failures, so it only
marks the IPv4 family as unsuccessful.  Consequences, evaluated here:
a hostname resolving to the blocked 10.0.0.1 over IPv4 and to a clean
address over IPv6 validates successfully (no failure at all), and a
hostname resolving exclusively to blocked addresses fails with the
resolution-failure error rather than the blocked-address error. -/
theorem c1_blocked_resolution_swallowed :
    isIPAddress "internal.example" = false ∧
    envC1.dns4 "internal.example" = some ["10.0.0.1"] ∧
    isBlockedIP "10.0.0.1" = true ∧
    isBlockedIP "2001:db8::1" = false ∧
    validateHostname envC1 "internal.example" = .ok () ∧
    validateHostname envC1only4 "internal.example" =
      .error (.resolutionFailure "internal.example") :=
  ⟨by decide, by decide, by decide, by decide, by decide, by decide⟩

/-! ### Claim C2: redirect hop bound -/

/-- Network where `http://a.example/` 301-redirects to
`http://b.example/`, which 301-redirects to `http://c.example/`, which
serves an HTML body; DNS resolves every hostname to a public address. -/
def envC2 : Env :=
  { parse := fun s =>
      if s == "http://a.example/" then some ⟨"http:", "a.example", none, "http://a.example/"⟩
      else if s == "http://b.example/" then some ⟨"http:", "b.example", none, "http://b.example/"⟩
      else if s == "http://c.example/" then some ⟨"http:", "c.example", none, "http://c.example/"⟩
      else none
    dns4 := fun _ => some ["93.184.216.34"]
    dns6 := fun _ => none
    net := fun s =>
      if s == "http://a.example/" then ⟨301, some "http://b.example/", none, ""⟩
      else if s == "http://b.example/" then ⟨301, some "http://c.example/", none, ""⟩
      else ⟨200, none, some "text/html", "ok"⟩
    resolveRel := fun l _ => l }

/-- Claim C2, code-bug evidence.  `fetchHTML` recursively calls itself
on every validated redirect target and keeps no hop counter, despite its
own comment "Only follow one redirect to reduce complexity"; no
too-many-redirects error exists anywhere in the source.  Evaluated on a
chain of two redirects: both are followed (a GET is issued to all three
URLs) and the final body is returned instead of a failure. -/
theorem c2_second_redirect_followed :
    (envC2.net "http://a.example/").status = 301 ∧
    (envC2.net "http://a.example/").location = some "http://b.example/" ∧
    (envC2.net "http://b.example/").status = 301 ∧
    (envC2.net "http://b.example/").location = some "http://c.example/" ∧
    fetchHTML envC2 5 "http://a.example/" =
      (.ok "ok", ["http://a.example/", "http://b.example/", "http://c.example/"]) :=
  ⟨by decide, by decide, by decide, by decide, by decide⟩

/-! ### Claim C3: redirect targets are re-validated -/

/-- Claim C3.  On a redirect status with a `Location` header, `fetchHTML`
resolves the target against the current URL and re-runs the full
`validateAndSanitizeUrl` pipeline on it; if that validation fails, the
fetch fails with the validation error (wrapped by the catch-all of
`fetchHTML` into its "Failed to fetch website" envelope) and the only
request issued is the one to the original URL — the redirect is not
followed. -/
theorem c3_redirect_revalidated (env : Env) (n : Nat) (url loc : String) (e : VErr)
    (h3 : 300 ≤ (env.net url).status) (h4 : (env.net url).status < 400)
    (hloc : (env.net url).location = some loc)
    (hval : validateAndSanitizeUrl env (env.parse (resolveLocation env loc url)) = .error e) :
    fetchHTML env (n + 1) url = (.error (.fetchFailed e), [url]) := by
  have h400 : ¬ 400 ≤ (env.net url).status := by omega
  simp only [fetchHTML, if_neg h400, if_pos h3, hloc, hval]

/-- Network where the validated external URL `http://evil.example/`
302-redirects to `http://127.0.0.1/`. -/
def envC3 : Env :=
  { parse := fun s =>
      if s == "http://evil.example/" then
        some ⟨"http:", "evil.example", none, "http://evil.example/"⟩
      else if s == "http://127.0.0.1/" then
        some ⟨"http:", "127.0.0.1", none, "http://127.0.0.1/"⟩
      else none
    dns4 := fun h => if h == "evil.example" then some ["93.184.216.34"] else none
    dns6 := fun _ => none
    net := fun s =>
      if s == "http://evil.example/" then ⟨302, some "http://127.0.0.1/", none, ""⟩
      else ⟨200, none, some "text/html", "secret"⟩
    resolveRel := fun l _ => l }

/-- Claim C3, witness: the spec's concrete scenario.  The external URL
redirects to `http://127.0.0.1/`; validation of the target classifies
the literal 127.0.0.1 as blocked, the fetch fails with that
blocked-address error, and no request is issued to 127.0.0.1. -/
theorem c3_redirect_revalidated_witness :
    (300 ≤ (envC3.net "http://evil.example/").status ∧
      (envC3.net "http://evil.example/").status < 400 ∧
      (envC3.net "http://evil.example/").location = some "http://127.0.0.1/") ∧
    fetchHTML envC3 5 "http://evil.example/" =
      (.error (.fetchFailed (.blockedAddress "127.0.0.1")), ["http://evil.example/"]) :=
  ⟨⟨by decide, by decide, by decide⟩,
   c3_redirect_revalidated envC3 4 "http://evil.example/" "http://127.0.0.1/"
     (.blockedAddress "127.0.0.1") (by decide) (by decide) (by decide) (by decide)⟩

/-! ### Shared lemmas about the sanitizer -/

/-- When the protocol and port gates pass, `validateAndSanitizeUrl` is
exactly hostname validation followed by serialization. -/
theorem sanitize_after_gates (env : Env) (u : ParsedURL)
    (hp : u.protocol = "http:" ∨ u.protocol = "https:")
    (hport : ALLOWED_PORTS.contains (effectivePort u) = true) :
    validateAndSanitizeUrl env (some u) =
      match validateHostname env u.hostname with
      | .error e => .error e
      | .ok _ => .ok u.href := by
  have hproto : (u.protocol == "http:" || u.protocol == "https:") = true := by
    rcases hp with h | h <;> simp [h]
  simp only [validateAndSanitizeUrl, hproto, hport, Bool.not_true, Bool.false_eq_true,
    if_false]

/-- A literal IP hostname that the classifier blocks makes
`validateHostname` fail with the blocked-address error, for every
environment (no DNS consulted). -/
theorem validateHostname_literal_blocked (env : Env) (h : String)
    (h1 : isIPAddress h = true) (h2 : isBlockedIP h = true) :
    validateHostname env h = .error (.blockedAddress h) := by
  simp [validateHostname, h1, h2]

/-! ### Claim C5: metadata-service literals -/

/-- Claim C5, counterexample.  The claim asserts that the Alibaba
metadata address 100.100.100.200 lies outside every range of the
Blocked Range Table; in fact its second octet 100 lies in 64..127, so it
falls in the carrier-grade-NAT range 100.64.0.0\/10 and the classifier
blocks it. -/
theorem c5_counterexample :
    METADATA_IPS.contains "100.100.100.200" = true ∧
    isBlockedIP "100.100.100.200" = true := by
  decide

/-- Claim C5 (amended).  A URL whose hostname is one of the metadata
literals and which passes the protocol and port gates always fails
sanitization, for every environment (so no DNS lookup and no fetch can
be observed); each of the three metadata IPs also lies in a blocked
range (169.254.0.0\/16 twice, 100.64.0.0\/10 once), so the failure is
the blocked-address error raised by the range check, which runs before
the metadata-set check. -/
theorem c5_metadata_blocked_amended (env : Env) (u : ParsedURL)
    (hm : METADATA_IPS.contains u.hostname = true)
    (hp : u.protocol = "http:" ∨ u.protocol = "https:")
    (hport : ALLOWED_PORTS.contains (effectivePort u) = true) :
    validateAndSanitizeUrl env (some u) = .error (.blockedAddress u.hostname) := by
  rw [sanitize_after_gates env u hp hport]
  have hcase : u.hostname = "169.254.169.254" ∨ u.hostname = "169.254.169.123" ∨
      u.hostname = "100.100.100.200" := by
    simp [METADATA_IPS, List.contains] at hm
    exact hm
  have hhv : validateHostname env u.hostname = .error (.blockedAddress u.hostname) := by
    rcases hcase with h | h | h <;>
      rw [h] <;>
      exact validateHostname_literal_blocked env _ (by decide) (by decide)
  rw [hhv]

/-- Claim C5, witness: the spec scenario `http://169.254.169.254/latest/meta-data/`. -/
theorem c5_metadata_blocked_amended_witness :
    validateAndSanitizeUrl envC1
      (some ⟨"http:", "169.254.169.254", none, "http://169.254.169.254/latest/meta-data/"⟩) =
      .error (.blockedAddress "169.254.169.254") :=
  c5_metadata_blocked_amended envC1
    ⟨"http:", "169.254.169.254", none, "http://169.254.169.254/latest/meta-data/"⟩
    (by decide) (Or.inl rfl) (by decide)

/-! ### Claim C6: protocol gate, fail-fast order -/

/-- Claim C6.  An unparsable URL fails with the invalid-format error and
a parsed URL whose scheme is neither `http:` nor `https:` fails with the
protocol error — in both cases for *every* environment, so the result is
independent of the DNS and network oracles: no resolution or network
call can influence it, and no partial result is returned.  Together with
`sanitize_after_gates` and `c7_port_gate` this exhibits the fixed
parse → protocol → port → hostname order. -/
theorem c6_protocol_gate :
    (∀ env : Env, validateAndSanitizeUrl env none = .error .invalidURL) ∧
    (∀ (env : Env) (u : ParsedURL), u.protocol ≠ "http:" → u.protocol ≠ "https:" →
      validateAndSanitizeUrl env (some u) = .error .protocolNotAllowed) := by
  refine ⟨fun env => rfl, fun env u h1 h2 => ?_⟩
  simp [validateAndSanitizeUrl, h1, h2]

/-- Environment with unused trivial oracles (everything fails or is
constant), for witnesses that must not depend on the environment. -/
def envTrivial : Env :=
  { parse := fun _ => none
    dns4 := fun _ => none
    dns6 := fun _ => none
    net := fun _ => ⟨200, none, some "text/html", ""⟩
    resolveRel := fun l _ => l }

/-- Environment whose DNS resolves every hostname to one public IPv4
address. -/
def envPublic : Env :=
  { parse := fun _ => none
    dns4 := fun _ => some ["93.184.216.34"]
    dns6 := fun _ => none
    net := fun _ => ⟨200, none, some "text/html", ""⟩
    resolveRel := fun l _ => l }

/-- Claim C6, witness: `ftp://example.com/` fails with the protocol
error, without any oracle being consulted. -/
theorem c6_protocol_gate_witness :
    validateAndSanitizeUrl envTrivial none = .error .invalidURL ∧
    validateAndSanitizeUrl envTrivial
      (some ⟨"ftp:", "example.com", none, "ftp://example.com/"⟩) =
      .error .protocolNotAllowed :=
  ⟨c6_protocol_gate.1 envTrivial,
   c6_protocol_gate.2 envTrivial ⟨"ftp:", "example.com", none, "ftp://example.com/"⟩
     (by decide) (by decide)⟩

/-! ### Claim C7: port gate -/

/-- Claim C7.  For a URL that passed the protocol gate, the effective
port — the explicit port if present, else 443 for `https:` and 80
otherwise — decides the port gate: an effective port outside
{80, 443, 8080, 8443} fails with the port error (for every environment,
before any hostname validation), and an allowed effective port hands the
URL to hostname validation, whose verdict becomes the sanitizer
verdict. -/
theorem c7_port_gate (env : Env) (u : ParsedURL)
    (hp : u.protocol = "http:" ∨ u.protocol = "https:") :
    (ALLOWED_PORTS.contains (effectivePort u) = false →
      validateAndSanitizeUrl env (some u) = .error (.portNotAllowed (effectivePort u))) ∧
    (ALLOWED_PORTS.contains (effectivePort u) = true →
      validateAndSanitizeUrl env (some u) =
        match validateHostname env u.hostname with
        | .error e => .error e
        | .ok _ => .ok u.href) := by
  have hproto : (u.protocol == "http:" || u.protocol == "https:") = true := by
    rcases hp with h | h <;> simp [h]
  refine ⟨fun hbad => ?_, fun hok => sanitize_after_gates env u hp hok⟩
  simp [validateAndSanitizeUrl, hproto, hbad]
  intro hmem
  exact absurd hmem (by simpa using hbad)

/-- Claim C7, witness: explicit port 9999 is rejected; explicit port
8080 and the implicit https default 443 pass the port gate and succeed
once the hostname resolves publicly. -/
theorem c7_port_gate_witness :
    validateAndSanitizeUrl envPublic
      (some ⟨"http:", "example.com", some 9999, "http://example.com:9999/"⟩) =
      .error (.portNotAllowed 9999) ∧
    validateAndSanitizeUrl envPublic
      (some ⟨"http:", "example.com", some 8080, "http://example.com:8080/"⟩) =
      .ok "http://example.com:8080/" ∧
    validateAndSanitizeUrl envPublic
      (some ⟨"https:", "example.com", none, "https://example.com/"⟩) =
      .ok "https://example.com/" :=
  ⟨(c7_port_gate envPublic ⟨"http:", "example.com", some 9999, "http://example.com:9999/"⟩
      (Or.inl rfl)).1 (by decide),
   ((c7_port_gate envPublic ⟨"http:", "example.com", some 8080, "http://example.com:8080/"⟩
      (Or.inl rfl)).2 (by decide)).trans (by decide),
   ((c7_port_gate envPublic ⟨"https:", "example.com", none, "https://example.com/"⟩
      (Or.inr rfl)).2 (by decide)).trans (by decide)⟩

/-! ### Claim C8: dual-family resolution -/

/-- DNS environment where `empty.example` has an IPv4 resolver that
returns zero addresses without error and an IPv6 resolver that fails. -/
def envC8 : Env :=
  { parse := fun _ => none
    dns4 := fun h => if h == "empty.example" then some [] else none
    dns6 := fun _ => none
    net := fun _ => ⟨200, none, some "text/html", ""⟩
    resolveRel := fun l _ => l }

/-- Claim C8, counterexample.  The claim counts a resolver returning
zero addresses as a failure of that family, so with IPv4 returning the
empty list and IPv6 failing, both families have failed and validation
should fail with the resolution error.  In the source the empty `for`
loop completes and sets `ipv4Success = true`, so validation succeeds. -/
theorem c8_counterexample :
    isIPAddress "empty.example" = false ∧
    envC8.dns4 "empty.example" = some [] ∧
    envC8.dns6 "empty.example" = none ∧
    validateHostname envC8 "empty.example" = .ok () := by
  decide

/-- Claim C8 (amended).  For a non-literal hostname both DNS families
are attempted independently — failure of one never aborts validation —
and validation fails (with the resolution-failure error) exactly when
neither family *succeeds*, where a family succeeds iff its resolver
returns an address list — the empty list included, zero addresses count
as success — in which no address is blocked (nor, for IPv4, a metadata
IP; a blocked address only cancels that family's success, it raises no
error).  In particular an empty IPv4 answer alone makes the whole
validation succeed. -/
theorem c8_resolution_amended (env : Env) (h : String) (hlit : isIPAddress h = false) :
    (validateHostname env h = .error (.resolutionFailure h) ↔
      resolutionOk4 env h = false ∧ resolutionOk6 env h = false) ∧
    (resolutionOk4 env h = true ∨ resolutionOk6 env h = true →
      validateHostname env h = .ok ()) ∧
    (env.dns4 h = some [] → validateHostname env h = .ok ()) := by
  have hok : env.dns4 h = some [] → resolutionOk4 env h = true := by
    intro he
    simp [resolutionOk4, he, checkList]
  refine ⟨?_, ?_, ?_⟩
  · cases h4 : resolutionOk4 env h <;> cases h6 : resolutionOk6 env h <;>
      simp [validateHostname, hlit, h4, h6]
  · intro hor
    rcases hor with h4 | h6
    · simp [validateHostname, hlit, h4]
    · simp [validateHostname, hlit, h6]
  · intro he
    simp [validateHostname, hlit, hok he]

/-- Claim C8, witness: a hostname with a clean IPv4 answer and a failing
IPv6 lookup validates successfully. -/
theorem c8_resolution_amended_witness :
    validateHostname envPublic "ok.example" = .ok () :=
  (c8_resolution_amended envPublic "ok.example" (by decide)).2.1 (Or.inl (by decide))

/-! ### Claim C10: dotted-quad-shaped hostnames are literals -/

/-- Claim C10.  Every hostname matching the dotted-quad shape regex —
including numerically invalid addresses such as 999.1.1.1 — is treated
as an IP literal by `validateHostname`: the result is computed from the
classifier and the metadata set alone (range check first, then metadata
set, then acceptance), uniformly in the environment, so no DNS
resolution is performed. -/
theorem c10_dotted_quad_literal (env : Env) (h : String)
    (hshape : ipv4Shape h.data = true) :
    validateHostname env h =
      (if isBlockedIP h then .error (.blockedAddress h)
       else if METADATA_IPS.contains h then .error .metadataBlocked
       else .ok ()) := by
  have hip : isIPAddress h = true := by
    unfold isIPAddress
    rw [hshape, Bool.true_or]
  simp [validateHostname, hip]

/-- Claim C10, witness: 999.1.1.1 has the dotted-quad shape, matches no
blocked pattern and is not a metadata IP, so it is accepted without DNS
(the environment resolves nothing). -/
theorem c10_dotted_quad_literal_witness :
    ipv4Shape ("999.1.1.1").data = true ∧
    isBlockedIP "999.1.1.1" = false ∧
    validateHostname envTrivial "999.1.1.1" = .ok () :=
  ⟨by decide, by decide,
   (c10_dotted_quad_literal envTrivial "999.1.1.1" (by decide)).trans (by decide)⟩

/-! ### Claim C9: the scoring scenario -/

/-- Claim C9.  For every metadata record with a 45-character title, no
(truthy) description, truthy `ogTitle`, `ogDescription` and `ogImage`,
and no canonical: the score is 100 minus the description-missing
penalty 20 and the canonical-missing penalty 8 (minus the only other
possible absent-field penalty, 5 for a missing viewport); the issue list
holds exactly one error entry, the missing-description one; it holds the
missing-canonical warning; and the tag list holds the `title` entry with
status `good`. -/
theorem c9_scoring_scenario (md : HTMLMetaData) (t : String)
    (ht : md.title = some t) (hlen : t.length = 45)
    (hd : truthy md.description = false)
    (hot : truthy md.ogTitle = true) (hod : truthy md.ogDescription = true)
    (hoi : truthy md.ogImage = true) (hc : truthy md.canonical = false) :
    (calculateSEOScore md).1 = 100 - 20 - 8 - (if truthy md.viewport then 0 else 5) ∧
    ((calculateSEOScore md).2.1.filter fun i => i.type == .error) =
      [⟨.error, "Missing meta description"⟩] ∧
    (⟨.warning, "Missing canonical URL"⟩ : SEOIssue) ∈ (calculateSEOScore md).2.1 ∧
    (⟨"title", t, .good, none⟩ : MetaTag) ∈ (calculateSEOScore md).2.2 := by
  have htne : (t == "") = false := by
    cases hb : t == "" with
    | false => rfl
    | true =>
      have : t = "" := eq_of_beq hb
      rw [this] at hlen
      exact absurd hlen (by decide)
  have htt : truthy (some t) = true := by simp [truthy, htne]
  cases hv : truthy md.viewport <;> cases hr : truthy md.robots <;>
    simp [calculateSEOScore, titleOut, descriptionOut, ogOut, ogImageOut,
      canonicalOut, viewportOut, robotsOut, ht, htt, hd, hot, hod, hoi, hc, hv, hr,
      hlen, List.filter]
  all_goals decide

/-- The concrete record of the spec scenario: 45-character title, no
description, complete Open Graph tags, no canonical (and no viewport or
robots). -/
def mdScenario : HTMLMetaData :=
  { title := some "A Perfectly Sized Page Title For The SEO Test"
    ogTitle := some "OG Title"
    ogDescription := some "OG Description"
    ogImage := some "https://example.com/og.png" }

/-- Claim C9, witness: on the concrete scenario record the score is
100 - 20 - 8 - 5 = 67, the only error issue is the missing description,
the missing-canonical warning is present and the `title` tag is good. -/
theorem c9_scoring_scenario_witness :
    (calculateSEOScore mdScenario).1 =
      100 - 20 - 8 - (if truthy mdScenario.viewport then 0 else 5) ∧
    ((calculateSEOScore mdScenario).2.1.filter fun i => i.type == .error) =
      [⟨.error, "Missing meta description"⟩] ∧
    (⟨.warning, "Missing canonical URL"⟩ : SEOIssue) ∈ (calculateSEOScore mdScenario).2.1 ∧
    (⟨"title", "A Perfectly Sized Page Title For The SEO Test", .good, none⟩ : MetaTag) ∈
      (calculateSEOScore mdScenario).2.2 :=
  c9_scoring_scenario mdScenario "A Perfectly Sized Page Title For The SEO Test"
    rfl (by decide) (by decide) (by decide) (by decide) (by decide) (by decide)
